import Mathlib

/-
Shallow embedding of the Stratify segmentation / experiment-assignment
engine (services/rule_engine.py, services/user_stats.py,
services/segment_svc.py, services/experiment_svc.py,
services/banner_mixture.py, services/dormancy_check.py, services/cache.py,
api/routes.py), together with theorems settling the frozen claims.

Modelling conventions:
- JSON / Python runtime values are the inductive `Value` (ints, strings,
  booleans, None, lists); Python numeric amounts and timestamps are
  modelled as `Int` (whole seconds for timestamps).
- Fallible Python code returns `Res α`: either `ok` or a raised exception
  (`PyErr`), which propagates exactly where Python would propagate it.
- The relational store is a pure `DB` record of rows; SQLAlchemy queries
  become list filters.  The Redis caches are association lists keyed by
  user id; TTL expiry is not modelled (no claim depends on it).
- `random.sample` is modelled by an explicit `sample` function parameter;
  `uuid4` primary keys by an explicit fresh-id argument.
-/

set_option maxRecDepth 100000

namespace Stratify

/-- Python exception kinds raised by the modelled code paths. -/
inductive PyErr where
  | typeError
  | valueError
  | indexError
deriving DecidableEq, Repr

/-- Result of running a Python fragment: a value or a raised exception. -/
inductive Res (α : Type) where
  | ok (a : α)
  | err (e : PyErr)
deriving DecidableEq, Repr

/-- Python runtime values appearing in rule trees and fact maps. -/
inductive Value where
  | int (n : Int)
  | str (s : String)
  | bool (b : Bool)
  | null
  | list (vs : List Value)
deriving Repr

/-- Numeric reading of a Python bool (`True == 1`, `False == 0`). -/
def boolInt (b : Bool) : Int := if b then 1 else 0

mutual
/-- Python `==` on the modelled values: numbers (ints and bools) compare
numerically, strings and `None` compare by identity of kind and content,
lists compare pointwise; values of incompatible kinds are unequal, never
an error. -/
def pyEq : Value → Value → Bool
  | .int a, .int b => a == b
  | .int a, .bool b => a == boolInt b
  | .bool a, .int b => boolInt a == b
  | .bool a, .bool b => a == b
  | .str a, .str b => a == b
  | .null, .null => true
  | .list as, .list bs => pyEqList as bs
  | _, _ => false

/-- Python `==` on lists: equal lengths and pointwise `pyEq`. -/
def pyEqList : List Value → List Value → Bool
  | [], [] => true
  | a :: as, b :: bs => pyEq a b && pyEqList as bs
  | _, _ => false
end

mutual
/-- Python `<`: numeric for ints/bools, lexicographic for strings and
lists; any other kind combination (including anything with `None`)
raises `TypeError`. -/
def pyLt : Value → Value → Res Bool
  | .int a, .int b => .ok (decide (a < b))
  | .int a, .bool b => .ok (decide (a < boolInt b))
  | .bool a, .int b => .ok (decide (boolInt a < b))
  | .bool a, .bool b => .ok (decide (boolInt a < boolInt b))
  | .str a, .str b => .ok (decide (a < b))
  | .list as, .list bs => pyLtList as bs
  | _, _ => .err .typeError

/-- Python list `<`: first non-`==` pair decides by `<` (which may itself
raise), otherwise the shorter list is smaller. -/
def pyLtList : List Value → List Value → Res Bool
  | [], [] => .ok false
  | [], _ :: _ => .ok true
  | _ :: _, [] => .ok false
  | a :: as, b :: bs => if pyEq a b then pyLtList as bs else pyLt a b
end

/-- Python list `<=`: first non-`==` pair decides by strict `<`,
otherwise compare lengths. -/
def pyLeList : List Value → List Value → Res Bool
  | [], _ => .ok true
  | _ :: _, [] => .ok false
  | a :: as, b :: bs => if pyEq a b then pyLeList as bs else pyLt a b

/-- Python `<=`; same kind rules as `pyLt`. -/
def pyLe : Value → Value → Res Bool
  | .int a, .int b => .ok (decide (a ≤ b))
  | .int a, .bool b => .ok (decide (a ≤ boolInt b))
  | .bool a, .int b => .ok (decide (boolInt a ≤ b))
  | .bool a, .bool b => .ok (decide (boolInt a ≤ boolInt b))
  | .str a, .str b => .ok (decide (a ≤ b))
  | .list as, .list bs => pyLeList as bs
  | _, _ => .err .typeError

/-- Python `a > b`, i.e. the reflected form of `b < a` (for the modelled
kinds the two agree, including the raised errors). -/
def pyGt (a b : Value) : Res Bool := pyLt b a

/-- Python `a >= b`, i.e. the reflected form of `b <= a`. -/
def pyGe (a b : Value) : Res Bool := pyLe b a

/-- Python `x in c`: membership by `==` in a list, contiguous-substring
test when both are strings; any other container kind (or a non-string
needle against a string) raises `TypeError`. -/
def pyIn (x c : Value) : Res Bool :=
  match c with
  | .list vs => .ok (vs.any (fun v => pyEq x v))
  | .str s =>
      match x with
      | .str sub => .ok (decide (List.IsInfix sub.data s.data))
      | _ => .err .typeError
  | _ => .err .typeError

/-- A rule tree (services/rule_engine.py): an internal node carries an
`operator` and child `conditions`; a leaf carries `field`, `op`, `value`. -/
inductive Rule where
  | node (op : String) (conditions : List Rule)
  | leaf (field : String) (op : String) (value : Value)

/-- A user's fact map: the dict built by `UserStatsService.get_stats`. -/
abbrev FactMap := List (String × Value)

/-- Python `dict.get(k)`: the value at the first matching key, else None. -/
def dictGet (m : FactMap) (k : String) : Option Value :=
  match m.find? (fun p => p.1 = k) with
  | some p => some p.2
  | none => none

/-- Leaf operator dispatch of `evaluate` (rule_engine.py lines 24-41),
reached only when the fact value is not None: the eight comparison
operators in source order, then `ValueError` for anything else. -/
def applyLeafOp (op : String) (uv v : Value) : Res Bool :=
  if op = "gt" then pyGt uv v
  else if op = "gte" then pyGe uv v
  else if op = "lt" then pyLt uv v
  else if op = "lte" then pyLe uv v
  else if op = "eq" then .ok (pyEq uv v)
  else if op = "neq" then .ok (!pyEq uv v)
  else if op = "in" then pyIn uv v
  else if op = "not_in" then
    match pyIn uv v with
    | .ok b => .ok (!b)
    | .err e => .err e
  else .err .valueError

mutual
/-- Model of `rule_engine.evaluate(rules, user_stats)`.  An internal node first
evaluates every child (a list comprehension, so an exception in any child
propagates before the operator is inspected), then applies all/any, and
raises `ValueError` on an unknown operator.  A leaf whose fact value is
missing or None is False before any operator dispatch; otherwise the leaf
operator runs and its `TypeError` (incompatible kinds) or `ValueError`
(unknown operator) propagates. -/
def evaluate : Rule → FactMap → Res Bool
  | .node op conds, stats =>
      match evalConditions conds stats with
      | .err e => .err e
      | .ok results =>
          if op = "AND" then .ok (results.all id)
          else if op = "OR" then .ok (results.any id)
          else .err .valueError

  | .leaf field op value, stats =>
      match dictGet stats field with
      | none => .ok false
      | some .null => .ok false
      | some uv => applyLeafOp op uv value

/-- The list comprehension `[evaluate(cond, user_stats) for cond in
rules["conditions"]]`: children in order, first exception propagates. -/
def evalConditions : List Rule → FactMap → Res (List Bool)
  | [], _ => .ok []
  | c :: rest, stats =>
      match evaluate c stats with
      | .err e => .err e
      | .ok b =>
          match evalConditions rest stats with
          | .err e => .err e
          | .ok bs => .ok (b :: bs)
end

/-- An `orders` row (db/models.py): timestamps are whole epoch seconds,
amounts are modelled as integers. -/
structure Order where
  orderID : String
  user_id : String
  amount : Int
  city : Option String
  created_at : Int
deriving DecidableEq, Repr

/-- A `segments` row (db/models.py): the JSON rule column carries a tree. -/
structure Segment where
  segmentID : String
  name : String
  description : Option String
  rules : Rule

/-- One entry of an experiment's JSON `variants` list: a name, an integer
weight, and an optional `banners` list (its presence is what Python's
`"banners" in variant` tests). -/
structure Variant where
  name : String
  weight : Int
  banners : Option (List Nat)
deriving DecidableEq, Repr

/-- An `experiments` row (db/models.py). -/
structure Experiment where
  experimentID : String
  name : String
  status : String
  variants : List Variant
deriving DecidableEq, Repr

/-- An `experiment_segments` association row (db/models.py). -/
structure ExperimentSegment where
  experimentID : String
  segmentID : String
deriving DecidableEq, Repr

/-- A `user_segment_memberships` row (db/models.py). -/
structure UserSegmentMembership where
  user_id : String
  segmentID : String
deriving DecidableEq, Repr

/-- The relational store: one list of rows per table used by the claims. -/
structure DB where
  orders : List Order
  segments : List Segment
  experiments : List Experiment
  experimentSegments : List ExperimentSegment
  memberships : List UserSegmentMembership

/-- Model of `func.max(Order.created_at)` over a row set. -/
def maxCreatedAt : List Order → Option Int
  | [] => none
  | o :: rest =>
      match maxCreatedAt rest with
      | none => some o.created_at
      | some m => some (max o.created_at m)

/-- Model of `.order_by(Order.created_at.desc()).first()`: an order with maximal
`created_at` (the first such row in store order), or None. -/
def latestOrder : List Order → Option Order
  | [] => none
  | o :: rest =>
      match latestOrder rest with
      | none => some o
      | some m => if o.created_at ≥ m.created_at then some o else some m

/-- Model of `UserStatsService.get_stats(user_id)` (services/user_stats.py): the
fact map computed fresh from the order ledger at time `now`.  The
`N days` cutoffs are `now - N*86400`; `seconds_since_last_order` falls
back to the literal sentinel `999999` when the user has never ordered;
`city` is the city of the most recent order (None when no orders or the
order has no city). -/
def get_stats (orders : List Order) (user_id : String) (now : Int) : FactMap :=
  let total_orders :=
    (orders.filter (fun o => o.user_id = user_id)).length
  let orders_last_15 :=
    (orders.filter (fun o =>
      o.user_id = user_id ∧ o.created_at ≥ now - 15 * 86400)).length
  let orders_last_23 :=
    (orders.filter (fun o =>
      o.user_id = user_id ∧ o.created_at ≥ now - 23 * 86400)).length
  let orders_last_12 :=
    (orders.filter (fun o =>
      o.user_id = user_id ∧ o.created_at ≥ now - 12 * 86400)).length
  let ltv :=
    ((orders.filter (fun o => o.user_id = user_id)).map (fun o => o.amount)).sum
  let last_order := maxCreatedAt (orders.filter (fun o => o.user_id = user_id))
  let seconds_since_last_order : Value :=
    match last_order with
    | some t => .int (now - t)
    | none => .int 999999
  let city : Value :=
    match latestOrder (orders.filter (fun o => o.user_id = user_id)) with
    | some o => match o.city with
        | some c => .str c
        | none => .null
    | none => .null
  [("total_orders", .int total_orders),
   ("order_count_last_15_days", .int orders_last_15),
   ("order_count_last_23_days", .int orders_last_23),
   ("order_count_last_12_days", .int orders_last_12),
   ("ltv", .int ltv),
   ("seconds_since_last_order", seconds_since_last_order),
   ("city", city),
   ("is_new_user", .bool (decide (total_orders = 0)))]

/-- The matching loop of `SegmentService.refresh_user_segments`
(segment_svc.py lines 33-36): segment ids whose rule evaluates to True
against the one stats snapshot, in segment-table order; an exception
from `evaluate` propagates. -/
def matchedSegments : List Segment → FactMap → Res (List String)
  | [], _ => .ok []
  | s :: rest, stats =>
      match evaluate s.rules stats with
      | .err e => .err e
      | .ok b =>
          match matchedSegments rest stats with
          | .err e => .err e
          | .ok tail => .ok (if b then s.segmentID :: tail else tail)

/-- Model of `SegmentService.refresh_user_segments(user_id)` (segment_svc.py):
fetch one stats snapshot, match every segment against it, then delete
all of the user's membership rows and insert one row per matched
segment, in a single committed transaction.  On an exception nothing is
committed (the session is rolled back by the caller), so the store is
returned unchanged in the error case of the callers modelled below. -/
def refresh_user_segments (db : DB) (user_id : String) (now : Int) :
    Res (DB × List String) :=
  let stats := get_stats db.orders user_id now
  match matchedSegments db.segments stats with
  | .err e => .err e
  | .ok matched =>
      let kept := db.memberships.filter (fun m => m.user_id ≠ user_id)
      let inserted := matched.map (fun sid =>
        { user_id := user_id, segmentID := sid : UserSegmentMembership })
      .ok ({ db with memberships := kept ++ inserted }, matched)

/-- Modelled from the spec: `SegmentService.has_segment_memberships`, the
"has any membership row" predicate of spec sections 4.3 and 4.6.  The
method is called by the read path (api/routes.py line 80) but its body is
absent from the provided sources; following the spec wording it reports
whether the user currently has at least one membership row. -/
def has_segment_memberships (db : DB) (user_id : String) : Bool :=
  db.memberships.any (fun m => m.user_id = user_id)

/-- Reduction modulo 2^32, applied wherever 32-bit words overflow. -/
def m32 (x : Nat) : Nat := x % 4294967296

/-- The 32-bit left rotation. -/
def rotl32 (x n : Nat) : Nat := m32 ((x <<< n) ||| (x >>> (32 - n)))

/-- The 32-bit bitwise complement (valid on inputs below 2^32). -/
def bnot32 (x : Nat) : Nat := 4294967295 - m32 x

/-- The 64 MD5 round constants (floor(abs(sin(i+1)) * 2^32)). -/
def md5K : List Nat :=
  [0xd76aa478, 0xe8c7b756, 0x242070db, 0xc1bdceee,
   0xf57c0faf, 0x4787c62a, 0xa8304613, 0xfd469501,
   0x698098d8, 0x8b44f7af, 0xffff5bb1, 0x895cd7be,
   0x6b901122, 0xfd987193, 0xa679438e, 0x49b40821,
   0xf61e2562, 0xc040b340, 0x265e5a51, 0xe9b6c7aa,
   0xd62f105d, 0x02441453, 0xd8a1e681, 0xe7d3fbc8,
   0x21e1cde6, 0xc33707d6, 0xf4d50d87, 0x455a14ed,
   0xa9e3e905, 0xfcefa3f8, 0x676f02d9, 0x8d2a4c8a,
   0xfffa3942, 0x8771f681, 0x6d9d6122, 0xfde5380c,
   0xa4beea44, 0x4bdecfa9, 0xf6bb4b60, 0xbebfbc70,
   0x289b7ec6, 0xeaa127fa, 0xd4ef3085, 0x04881d05,
   0xd9d4d039, 0xe6db99e5, 0x1fa27cf8, 0xc4ac5665,
   0xf4292244, 0x432aff97, 0xab9423a7, 0xfc93a039,
   0x655b59c3, 0x8f0ccc92, 0xffeff47d, 0x85845dd1,
   0x6fa87e4f, 0xfe2ce6e0, 0xa3014314, 0x4e0811a1,
   0xf7537e82, 0xbd3af235, 0x2ad7d2bb, 0xeb86d391]

/-- The per-round left-rotation amounts of MD5. -/
def md5S : List Nat :=
  [7, 12, 17, 22, 7, 12, 17, 22, 7, 12, 17, 22, 7, 12, 17, 22,
   5, 9, 14, 20, 5, 9, 14, 20, 5, 9, 14, 20, 5, 9, 14, 20,
   4, 11, 16, 23, 4, 11, 16, 23, 4, 11, 16, 23, 4, 11, 16, 23,
   6, 10, 15, 21, 6, 10, 15, 21, 6, 10, 15, 21, 6, 10, 15, 21]

/-- One MD5 round: round index `i`, message words `M`, state (a,b,c,d). -/
def md5Step (M : List Nat) (st : Nat × Nat × Nat × Nat) (i : Nat) :
    Nat × Nat × Nat × Nat :=
  let (a, b, c, d) := st
  let (f, g) :=
    if i < 16 then ((b &&& c) ||| (bnot32 b &&& d), i)
    else if i < 32 then ((d &&& b) ||| (bnot32 d &&& c), (5 * i + 1) % 16)
    else if i < 48 then (b ^^^ c ^^^ d, (3 * i + 5) % 16)
    else (c ^^^ (b ||| bnot32 d), (7 * i) % 16)
  let f2 := m32 (f + a + md5K.getD i 0 + M.getD g 0)
  (d, m32 (b + rotl32 f2 (md5S.getD i 0)), b, c)

/-- Split the padded byte stream into little-endian 32-bit words. -/
def toWords : List Nat → List Nat
  | b0 :: b1 :: b2 :: b3 :: rest =>
      (b0 + 256 * b1 + 65536 * b2 + 16777216 * b3) :: toWords rest
  | _ => []

/-- Process one 16-word chunk through the 64 rounds and add back. -/
def md5Chunk (st : Nat × Nat × Nat × Nat) (M : List Nat) :
    Nat × Nat × Nat × Nat :=
  let (a0, b0, c0, d0) := st
  let (a, b, c, d) := (List.range 64).foldl (md5Step M) (a0, b0, c0, d0)
  (m32 (a0 + a), m32 (b0 + b), m32 (c0 + c), m32 (d0 + d))

/-- Fold all 16-word chunks of the padded message into the state. -/
def md5Chunks (st : Nat × Nat × Nat × Nat) :
    List Nat → Nat × Nat × Nat × Nat
  | w0 :: w1 :: w2 :: w3 :: w4 :: w5 :: w6 :: w7 ::
    w8 :: w9 :: w10 :: w11 :: w12 :: w13 :: w14 :: w15 :: rest =>
      md5Chunks
        (md5Chunk st
          [w0, w1, w2, w3, w4, w5, w6, w7,
           w8, w9, w10, w11, w12, w13, w14, w15])
        rest
  | _ => st

/-- MD5 padding: 0x80, zeros to 56 mod 64, 8-byte little-endian bit
length.  The zero count is congruent to 55 - len (mod 64); it is written
as (119 - len % 64) % 64 so the truncating Nat subtraction never fires
(len % 64 is at most 63 < 119). -/
def md5Pad (msg : List Nat) : List Nat :=
  let len := msg.length
  let zeros := (119 - (len % 64)) % 64
  let bitLen := (8 * len) % (2 ^ 64)
  msg ++ [0x80] ++ List.replicate zeros 0 ++
    (List.range 8).map (fun i => (bitLen >>> (8 * i)) % 256)

/-- The 16 digest bytes: a, b, c, d serialized little-endian. -/
def md5Digest (msg : List Nat) : List Nat :=
  let ws := toWords (md5Pad msg)
  let (a, b, c, d) :=
    md5Chunks (0x67452301, 0xefcdab89, 0x98badcfe, 0x10325476) ws
  [a, b, c, d].flatMap (fun w => (List.range 4).map (fun i => (w >>> (8 * i)) % 256))

/-- Python `int(hashlib.md5(msg).hexdigest(), 16)`: the digest bytes read
as one big-endian integer. -/
def md5Nat (msg : List Nat) : Nat :=
  (md5Digest msg).foldl (fun acc b => acc * 256 + b) 0

/-- UTF-8 encoding of a string (Python `str.encode()`). -/
def utf8Bytes (s : String) : List Nat :=
  s.data.flatMap (fun c =>
    let n := c.toNat
    if n < 0x80 then [n]
    else if n < 0x800 then [0xC0 ||| (n >>> 6), 0x80 ||| (n &&& 0x3F)]
    else if n < 0x10000 then
      [0xE0 ||| (n >>> 12), 0x80 ||| ((n >>> 6) &&& 0x3F),
       0x80 ||| (n &&& 0x3F)]
    else
      [0xF0 ||| (n >>> 18), 0x80 ||| ((n >>> 12) &&& 0x3F),
       0x80 ||| ((n >>> 6) &&& 0x3F), 0x80 ||| (n &&& 0x3F)])

/-- The bucket of `ExperimentService.assign_variant` (experiment_svc.py
line 61): `int(md5("{user_id}:{experiment_id}").hexdigest(), 16) % 100`. -/
def bucketOf (user_id experimentID : String) : Nat :=
  md5Nat (utf8Bytes (user_id ++ ":" ++ experimentID)) % 100

/-- The cumulative-weight walk of `assign_variant` (lines 63-67): running
total of weights in declared order, first variant with `bucket <
cumulative` wins. -/
def assignWalk (bucket : Nat) (cumulative : Int) :
    List Variant → Option Variant
  | [] => none
  | v :: rest =>
      if (bucket : Int) < cumulative + v.weight then some v
      else assignWalk bucket (cumulative + v.weight) rest

/-- Model of `ExperimentService.assign_variant(user_id, experiment)`: hash bucket
in [0,100), cumulative-weight walk, and the `variants[-1]` fallback
(which raises `IndexError` on an empty variant list). -/
def assign_variant (user_id : String) (exp : Experiment) : Res Variant :=
  let bucket := bucketOf user_id exp.experimentID
  match assignWalk bucket 0 exp.variants with
  | some v => .ok v
  | none =>
      match exp.variants.getLast? with
      | some v => .ok v
      | none => .err .indexError

/-- The segment-link loop of `create_experiment` (experiment_svc.py lines
44-53): for each requested segment id, add an association row unless one
already exists for this experiment and segment. -/
def linkSegments (links : List ExperimentSegment) (experimentID : String)
    (segmentIDs : List String) : List ExperimentSegment :=
  segmentIDs.foldl
    (fun acc sid =>
      if acc.any (fun l => l.experimentID = experimentID ∧ l.segmentID = sid)
      then acc
      else acc ++ [{ experimentID := experimentID, segmentID := sid }])
    links

/-- Model of `ExperimentService.create_experiment(name, variants, segmentIDs)`
(experiment_svc.py lines 24-55): raise `ValueError` when the variant
weights do not sum to exactly 100, before anything is written; otherwise
insert a new experiment row (fresh primary key `newId`, status
"active"), or — when the unique name constraint fires — roll back and
reuse the existing row; in both cases link the requested segments. -/
def create_experiment (db : DB) (newId : String) (name : String)
    (variants : List Variant) (segmentIDs : List String) :
    Res (DB × Experiment) :=
  let total_weight := (variants.map (fun v => v.weight)).sum
  if total_weight ≠ 100 then .err .valueError
  else
    match db.experiments.find? (fun e => e.name = name) with
    | some existing =>
        let links :=
          linkSegments db.experimentSegments existing.experimentID segmentIDs
        .ok ({ db with experimentSegments := links }, existing)
    | none =>
        let exp : Experiment :=
          { experimentID := newId, name := name, status := "active",
            variants := variants }
        let links := linkSegments db.experimentSegments newId segmentIDs
        .ok ({ db with experiments := db.experiments ++ [exp],
                       experimentSegments := links }, exp)

/-- One entry of the list returned by
`ExperimentService.get_user_experiments`. -/
structure ExpResult where
  experimentID : String
  name : String
  variant : String
deriving DecidableEq, Repr

/-- One entry of the list returned by
`ExperimentService.get_banner_experiments`. -/
structure BannerExp where
  experimentID : String
  name : String
  variant_name : String
  banners : List Nat
deriving DecidableEq, Repr

/-- Provenance entry of a cached banner mixture
(`source_info` in `generate_user_banner_mixture`). -/
structure SourceInfo where
  experiment_id : String
  name : String
  variant : String
  contributed_banners : List Nat
deriving DecidableEq, Repr

/-- A cached banner mixture (services/banner_mixture.py): the selected
banner ids plus provenance.  The `assigned_at`/`expires_at` timestamps
and TTL of the Redis payload are not modelled. -/
structure Mixture where
  banners : List Nat
  source_experiments : List SourceInfo
deriving DecidableEq, Repr

/-- A per-user-keyed cache (one Redis key family); TTL not modelled. -/
abbrev Cache (α : Type) := List (String × α)

/-- Redis `get` on a per-user key. -/
def cacheGet {α : Type} (c : Cache α) (user_id : String) : Option α :=
  match c.find? (fun p => p.1 = user_id) with
  | some p => some p.2
  | none => none

/-- Redis `setex` on a per-user key: replace any existing entry. -/
def cacheSet {α : Type} (c : Cache α) (user_id : String) (v : α) : Cache α :=
  c.filter (fun p => p.1 ≠ user_id) ++ [(user_id, v)]

/-- Redis `delete` on a per-user key (`invalidate_user_cache`,
`invalidate_banner_mixture`). -/
def cacheDel {α : Type} (c : Cache α) (user_id : String) : Cache α :=
  c.filter (fun p => p.1 ≠ user_id)

/-- Whole-system state: the store plus the two per-user cache
sub-entries (experiment-assignment list, banner mixture). -/
structure AppState where
  db : DB
  expCache : Cache (List ExpResult)
  bannerCache : Cache Mixture

/-- The segment ids linked to an experiment
(`{es.segmentID for es in exp.segments}`). -/
def targetSegments (db : DB) (experimentID : String) : List String :=
  (db.experimentSegments.filter
    (fun es => es.experimentID = experimentID)).map (fun es => es.segmentID)

/-- The user's current segment ids
(`set(s.segmentID for s in segments)` in experiment_svc.py). -/
def userSegmentIDs (db : DB) (user_id : String) : List String :=
  (db.memberships.filter (fun m => m.user_id = user_id)).map
    (fun m => m.segmentID)

/-- Non-empty set intersection `target_segments & segmentIDs`. -/
def segsIntersect (targets userSegs : List String) : Bool :=
  targets.any (fun t => userSegs.contains t)

/-- The per-experiment loop of `get_user_experiments` (experiment_svc.py
lines 173-182) over the active experiments: skip experiments whose
linked segments do not intersect the user's memberships, otherwise
assign a variant (an exception propagates) and record its name. -/
def resolveExperiments (db : DB) (user_id : String)
    (userSegs : List String) : List Experiment → Res (List ExpResult)
  | [] => .ok []
  | exp :: rest =>
      if segsIntersect (targetSegments db exp.experimentID) userSegs then
        match assign_variant user_id exp with
        | .err e => .err e
        | .ok v =>
            match resolveExperiments db user_id userSegs rest with
            | .err e => .err e
            | .ok tail =>
                .ok ({ experimentID := exp.experimentID, name := exp.name,
                       variant := v.name } :: tail)
      else resolveExperiments db user_id userSegs rest

/-- Model of `ExperimentService.get_user_experiments(user_id)`: memberships, then
all active experiments with their segment links in one fetch, then the
intersection/assignment loop. -/
def get_user_experiments (db : DB) (user_id : String) : Res (List ExpResult) :=
  let userSegs := userSegmentIDs db user_id
  let active := db.experiments.filter (fun e => e.status = "active")
  resolveExperiments db user_id userSegs active

/-- The per-experiment loop of `get_banner_experiments` (experiment_svc.py
lines 96-108): like `resolveExperiments`, but an assigned variant
contributes only when it carries a `banners` key. -/
def resolveBannerExperiments (db : DB) (user_id : String)
    (userSegs : List String) : List Experiment → Res (List BannerExp)
  | [] => .ok []
  | exp :: rest =>
      if segsIntersect (targetSegments db exp.experimentID) userSegs then
        match assign_variant user_id exp with
        | .err e => .err e
        | .ok v =>
            match resolveBannerExperiments db user_id userSegs rest with
            | .err e => .err e
            | .ok tail =>
                match v.banners with
                | some bs =>
                    .ok ({ experimentID := exp.experimentID, name := exp.name,
                           variant_name := v.name, banners := bs } :: tail)
                | none => .ok tail
      else resolveBannerExperiments db user_id userSegs rest

/-- Model of `ExperimentService.get_banner_experiments(user_id)`. -/
def get_banner_experiments (db : DB) (user_id : String) :
    Res (List BannerExp) :=
  let userSegs := userSegmentIDs db user_id
  let active := db.experiments.filter (fun e => e.status = "active")
  resolveBannerExperiments db user_id userSegs active

/-- Insertion of one element into an ascending list. -/
def insertAsc (n : Nat) : List Nat → List Nat
  | [] => [n]
  | m :: rest => if n ≤ m then n :: m :: rest else m :: insertAsc n rest

/-- Python `sorted` on a list of ints (ascending insertion sort). -/
def sortAsc (l : List Nat) : List Nat := l.foldr insertAsc []

/-- Python `set.update` pooling: append each banner not already pooled
(`banner_pool.update(banners)` — duplicates collapse). -/
def poolBanners (pool : List Nat) (banners : List Nat) : List Nat :=
  banners.foldl (fun acc b => if acc.contains b then acc else acc ++ [b]) pool

/-- Model of `banner_mixture.generate_banner_mixture(available_banners)`: empty
pool yields an empty list, otherwise a random sample without
replacement (the nondeterministic `random.sample` is the `sample`
parameter) sorted ascending. -/
def generate_banner_mixture (sample : List Nat → List Nat)
    (available_banners : List Nat) : List Nat :=
  if available_banners.isEmpty then []
  else sortAsc (sample available_banners)

/-- Model of `ExperimentService.generate_user_banner_mixture(user_id)`
(experiment_svc.py lines 114-160): cache hit returns the cached mixture
unchanged; on a miss with no applicable banner experiments, return None
and write nothing; otherwise pool the contributed banners, draw and sort
a sample, cache the mixture with provenance, and return it. -/
def generate_user_banner_mixture (sample : List Nat → List Nat)
    (st : AppState) (user_id : String) : Res (AppState × Option Mixture) :=
  match cacheGet st.bannerCache user_id with
  | some cached => .ok (st, some cached)
  | none =>
      match get_banner_experiments st.db user_id with
      | .err e => .err e
      | .ok banner_experiments =>
          if banner_experiments.isEmpty then .ok (st, none)
          else
            let banner_pool :=
              banner_experiments.foldl
                (fun acc item => poolBanners acc item.banners) []
            let source_info := banner_experiments.map (fun item =>
              { experiment_id := item.experimentID, name := item.name,
                variant := item.variant_name,
                contributed_banners := item.banners : SourceInfo })
            let selected := generate_banner_mixture sample banner_pool
            let mixture : Mixture :=
              { banners := selected, source_experiments := source_info }
            .ok ({ st with bannerCache :=
                     cacheSet st.bannerCache user_id mixture },
                 some mixture)

/-- Model of `dormancy_check.check_user_dormancy(user_id, order_placed_at)`:
if the user has any order strictly after the order that scheduled the
check, do nothing; otherwise refresh the user's segments and invalidate
both cache sub-entries.  Any exception is caught and logged, leaving the
state unchanged (the session commit never happened). -/
def check_user_dormancy (st : AppState) (user_id : String)
    (order_placed_at : Int) (now : Int) : AppState :=
  if st.db.orders.any (fun o =>
      o.user_id = user_id ∧ o.created_at > order_placed_at) then st
  else
    match refresh_user_segments st.db user_id now with
    | .err _ => st
    | .ok (db1, _) =>
        { db := db1,
          expCache := cacheDel st.expCache user_id,
          bannerCache := cacheDel st.bannerCache user_id }

/-- The JSON body answered by `GET /users/{user_id}/experiments`
(api/routes.py lines 63-91); `banner_mixture` is absent when the
mixture generator returned None. -/
structure RouteResponse where
  user_id : String
  experiments : List ExpResult
  source : String
  banner_mixture : Option Mixture
deriving DecidableEq, Repr

/-- Model of `GET /users/{user_id}/experiments` (api/routes.py lines 63-91).  On
a cache hit, serve the cached assignment list (still generating the
banner mixture).  On a miss, run the Segment Resolver only when the
user has no membership rows, then resolve experiments, generate the
banner mixture, populate the assignment cache, and answer from the
store.  Uncaught exceptions propagate to the framework. -/
def get_user_experiments_route (sample : List Nat → List Nat)
    (st : AppState) (user_id : String) (now : Int) :
    Res (AppState × RouteResponse) :=
  match cacheGet st.expCache user_id with
  | some cached =>
      match generate_user_banner_mixture sample st user_id with
      | .err e => .err e
      | .ok (st1, bm) =>
          .ok (st1, { user_id := user_id, experiments := cached,
                      source := "cache", banner_mixture := bm })
  | none =>
      let ensured : Res DB :=
        if has_segment_memberships st.db user_id then .ok st.db
        else
          match refresh_user_segments st.db user_id now with
          | .err e => .err e
          | .ok (db1, _) => .ok db1
      match ensured with
      | .err e => .err e
      | .ok db1 =>
          match get_user_experiments db1 user_id with
          | .err e => .err e
          | .ok experiments =>
              let st1 : AppState := { st with db := db1 }
              match generate_user_banner_mixture sample st1 user_id with
              | .err e => .err e
              | .ok (st2, bm) =>
                  let st3 :=
                    { st2 with expCache :=
                        cacheSet st2.expCache user_id experiments }
                  .ok (st3, { user_id := user_id,
                              experiments := experiments,
                              source := "db", banner_mixture := bm })

/-! ### Helper lemmas -/

/-- Cumulative weight of the first `k` variants in declared order. -/
def cumWeight (vars : List Variant) (k : Nat) : Int :=
  ((vars.take k).map (fun v => v.weight)).sum

theorem cumWeight_cons (v : Variant) (rest : List Variant) (k : Nat) :
    cumWeight (v :: rest) (k + 1) = v.weight + cumWeight rest k := by
  simp [cumWeight]

theorem cumWeight_one (v : Variant) (rest : List Variant) :
    cumWeight (v :: rest) 1 = v.weight := by
  simp [cumWeight]

theorem assignWalk_found (bucket : Nat) :
    ∀ (vars : List Variant) (cum : Int) (i : Nat) (hi : i < vars.length),
      (bucket : Int) < cum + cumWeight vars (i + 1) →
      (∀ j, j < i → cum + cumWeight vars (j + 1) ≤ (bucket : Int)) →
      assignWalk bucket cum vars = some (vars.get ⟨i, hi⟩) := by
  intro vars
  induction vars with
  | nil => intro cum i hi; simp at hi
  | cons v rest ih =>
      intro cum i hi hlt hle
      cases i with
      | zero =>
          rw [cumWeight_one] at hlt
          simp [assignWalk, hlt]
      | succ i =>
          have h0 : cum + cumWeight (v :: rest) 1 ≤ (bucket : Int) :=
            hle 0 (Nat.succ_pos i)
          rw [cumWeight_one] at h0
          have hnot : ¬ ((bucket : Int) < cum + v.weight) := by omega
          simp only [assignWalk, hnot, if_false]
          have hi2 : i < rest.length := by simpa using hi
          have := ih (cum + v.weight) i hi2
            (by rw [cumWeight_cons] at hlt; omega)
            (fun j hj => by
              have := hle (j + 1) (by omega)
              rw [cumWeight_cons] at this; omega)
          simpa using this

theorem assignWalk_none (bucket : Nat) :
    ∀ (vars : List Variant) (cum : Int),
      (∀ i, i < vars.length → cum + cumWeight vars (i + 1) ≤ (bucket : Int)) →
      assignWalk bucket cum vars = none := by
  intro vars
  induction vars with
  | nil => intro cum _; rfl
  | cons v rest ih =>
      intro cum hle
      have h0 : cum + cumWeight (v :: rest) 1 ≤ (bucket : Int) :=
        hle 0 (Nat.succ_pos _)
      rw [cumWeight_one] at h0
      have hnot : ¬ ((bucket : Int) < cum + v.weight) := by omega
      simp only [assignWalk, hnot, if_false]
      exact ih (cum + v.weight)
        (fun i hi => by
          have := hle (i + 1) (by simpa using Nat.succ_lt_succ hi)
          rw [cumWeight_cons] at this; omega)

/-! ### Claim theorems -/

/-- C3: for every user id and experiment with a non-empty variant list,
`assign_variant` hashes `"{user_id}:{experiment_id}"` (MD5) and reduces
modulo 100 to a bucket in [0, 100); it walks the variants in declared
order accumulating weights and returns the first variant whose
cumulative weight strictly exceeds the bucket; when no cumulative weight
exceeds the bucket (weights summing under 100) the last variant of the
list is returned rather than no assignment.  Two calls with unchanged
inputs agree because `assign_variant` is a pure function of its
arguments. -/
theorem C3_assign_variant_bucket_walk (u : String) (exp : Experiment)
    (hne : exp.variants ≠ []) :
    bucketOf u exp.experimentID < 100
    ∧ (∀ i (hi : i < exp.variants.length),
        (bucketOf u exp.experimentID : Int) < cumWeight exp.variants (i + 1) →
        (∀ j, j < i →
          cumWeight exp.variants (j + 1) ≤ (bucketOf u exp.experimentID : Int)) →
        assign_variant u exp = .ok (exp.variants.get ⟨i, hi⟩))
    ∧ ((∀ i, i < exp.variants.length →
          cumWeight exp.variants (i + 1) ≤ (bucketOf u exp.experimentID : Int)) →
        ∃ v, exp.variants.getLast? = some v ∧ assign_variant u exp = .ok v) := by
  refine ⟨Nat.mod_lt _ (by norm_num), ?_, ?_⟩
  · intro i hi hlt hle
    have hwalk := assignWalk_found (bucketOf u exp.experimentID)
      exp.variants 0 i hi (by simpa using hlt) (fun j hj => by simpa using hle j hj)
    simp [assign_variant, hwalk]
  · intro hle
    have hwalk := assignWalk_none (bucketOf u exp.experimentID)
      exp.variants 0 (fun i hi => by simpa using hle i hi)
    obtain ⟨v, hv⟩ : ∃ v, exp.variants.getLast? = some v := by
      cases hl : exp.variants.getLast? with
      | none => exact absurd (List.getLast?_eq_none_iff.mp hl) hne
      | some v => exact ⟨v, rfl⟩
    exact ⟨v, hv, by simp [assign_variant, hwalk, hv]⟩

/-- The user id of the C3 witness: 40 characters, so the hashed key
"u...u:e...e" is 60 bytes long and its MD5 padding spans a full extra
block (a length class where a padding slip would change the digest). -/
def uC3 : String := "uuuuuuuuuuuuuuuuuuuuuuuuuuuuuuuuuuuuuuuu"

/-- The experiment of the C3 witness: a 19-character id (making the
hashed key 60 bytes) and weights [75, 1, 24]; variant B is assigned
exactly when the bucket equals 75, so the witness detects the concrete
hash value. -/
def expC3 : Experiment :=
  { experimentID := "eeeeeeeeeeeeeeeeeee", name := "E", status := "active",
    variants := [{ name := "A", weight := 75, banners := none },
                 { name := "B", weight := 1, banners := none },
                 { name := "C", weight := 24, banners := none }] }

/-- C3 witness: for the 60-byte key of `uC3` and `expC3` the MD5 bucket
evaluates to 75 (matching hashlib.md5), which is below 100, and the
cumulative walk 75, 76, 100 assigns variant B — the unique variant whose
cumulative weight first strictly exceeds 75. -/
theorem C3_assign_variant_bucket_walk_witness :
    (bucketOf uC3 expC3.experimentID < 100
    ∧ (∀ i (hi : i < expC3.variants.length),
        (bucketOf uC3 expC3.experimentID : Int) <
          cumWeight expC3.variants (i + 1) →
        (∀ j, j < i →
          cumWeight expC3.variants (j + 1) ≤
            (bucketOf uC3 expC3.experimentID : Int)) →
        assign_variant uC3 expC3 = .ok (expC3.variants.get ⟨i, hi⟩))
    ∧ ((∀ i, i < expC3.variants.length →
          cumWeight expC3.variants (i + 1) ≤
            (bucketOf uC3 expC3.experimentID : Int)) →
        ∃ v, expC3.variants.getLast? = some v ∧
          assign_variant uC3 expC3 = .ok v))
    ∧ bucketOf uC3 expC3.experimentID = 75
    ∧ assign_variant uC3 expC3 =
        .ok { name := "B", weight := 1, banners := none } :=
  ⟨C3_assign_variant_bucket_walk uC3 expC3 (by decide), by rfl, by rfl⟩

theorem pyEq_int_str (n : Int) (s : String) : pyEq (.int n) (.str s) = false := rfl

theorem pyLt_int_str (n : Int) (s : String) :
    pyLt (.int n) (.str s) = .err .typeError := rfl

theorem pyLt_str_int (s : String) (n : Int) :
    pyLt (.str s) (.int n) = .err .typeError := rfl

theorem pyLe_int_str (n : Int) (s : String) :
    pyLe (.int n) (.str s) = .err .typeError := rfl

theorem pyLe_str_int (s : String) (n : Int) :
    pyLe (.str s) (.int n) = .err .typeError := rfl

theorem pyIn_int_int (n m : Int) : pyIn (.int n) (.int m) = .err .typeError := rfl

/-- C4: experiment creation with variant weights not summing to exactly
100 raises the validation error before any row is written, so the store
is unchanged; with weights summing to exactly 100 this error is not
raised (creation succeeds). -/
theorem C4_weight_sum_validation (db : DB) (newId name : String)
    (variants : List Variant) (segmentIDs : List String) :
    ((variants.map (fun v => v.weight)).sum ≠ 100 →
      create_experiment db newId name variants segmentIDs = .err .valueError)
    ∧ ((variants.map (fun v => v.weight)).sum = 100 →
      ∃ r, create_experiment db newId name variants segmentIDs = .ok r) := by
  constructor
  · intro hsum
    simp [create_experiment, hsum]
  · intro hsum
    simp only [create_experiment, hsum, ne_eq]
    cases hfind : db.experiments.find? (fun e => e.name = name) with
    | some existing => exact ⟨_, rfl⟩
    | none => exact ⟨_, rfl⟩

/-- C4 witness: weights [40, 40] are rejected with the validation error
at a concrete store. -/
theorem C4_weight_sum_validation_witness :
    create_experiment
      { orders := [], segments := [], experiments := [],
        experimentSegments := [], memberships := [] }
      "x1" "exp" [{ name := "A", weight := 40, banners := none },
                  { name := "B", weight := 40, banners := none }] [] =
      .err .valueError :=
  (C4_weight_sum_validation
    { orders := [], segments := [], experiments := [],
      experimentSegments := [], memberships := [] }
    "x1" "exp" [{ name := "A", weight := 40, banners := none },
                { name := "B", weight := 40, banners := none }] []).1
    (by decide)

/-- C10: `create_experiment` validates the weight sum before the
duplicate-name check: with an experiment of the requested name already
present, weights not summing to 100 still raise the validation error,
and only a weight sum of exactly 100 reaches the
duplicate-name-returns-existing path. -/
theorem C10_validation_precedes_duplicate_check (db : DB)
    (newId name : String) (variants : List Variant)
    (segmentIDs : List String) (e0 : Experiment)
    (hfound : db.experiments.find? (fun e => e.name = name) = some e0) :
    ((variants.map (fun v => v.weight)).sum ≠ 100 →
      create_experiment db newId name variants segmentIDs = .err .valueError)
    ∧ ((variants.map (fun v => v.weight)).sum = 100 →
      ∃ db1, create_experiment db newId name variants segmentIDs =
        .ok (db1, e0)) := by
  constructor
  · intro hsum
    simp [create_experiment, hsum]
  · intro hsum
    simp only [create_experiment, hsum, ne_eq, hfound]
    exact ⟨_, rfl⟩

/-- C10 witness: duplicate name "dup" with weights [40, 40] raises the
validation error instead of returning the existing experiment. -/
theorem C10_validation_precedes_duplicate_check_witness :
    create_experiment
      { orders := [], segments := [],
        experiments := [{ experimentID := "e9", name := "dup",
                          status := "active",
                          variants := [{ name := "A", weight := 100,
                                         banners := none }] }],
        experimentSegments := [], memberships := [] }
      "x1" "dup" [{ name := "A", weight := 40, banners := none },
                  { name := "B", weight := 40, banners := none }] [] =
      .err .valueError :=
  (C10_validation_precedes_duplicate_check
    { orders := [], segments := [],
      experiments := [{ experimentID := "e9", name := "dup",
                        status := "active",
                        variants := [{ name := "A", weight := 100,
                                       banners := none }] }],
      experimentSegments := [], memberships := [] }
    "x1" "dup" [{ name := "A", weight := 40, banners := none },
                { name := "B", weight := 40, banners := none }] []
    { experimentID := "e9", name := "dup", status := "active",
      variants := [{ name := "A", weight := 100, banners := none }] }
    (by rfl)).1 (by decide)

/-- C5 counterexample: the claim says a leaf over incompatible types
evaluates to false without crashing and siblings are still evaluated;
but with fact value 5 (int) and rule value "abc" (str) under `gt`,
Python raises `TypeError` (`int > str` is unsupported), which propagates
out of `evaluate` — the AND node errors instead of evaluating to a
boolean. -/
theorem C5_counterexample :
    evaluate (.node "AND" [.leaf "x" "gt" (.str "abc"),
                           .leaf "x" "eq" (.int 5)])
      [("x", .int 5)] = .err .typeError := by rfl

/-- C5 amended: comparing incompatible types does not crash the
evaluator only for the equality operators: with an int fact value
against a str rule value, an `eq` leaf evaluates to false (and an AND
node still evaluates the sibling, the error of a sibling propagating as
usual), while `neq` evaluates to true — not false; the ordering
operators `gt`/`gte`/`lt`/`lte` raise a `TypeError` that propagates out
of `evaluate`, as does `in`/`not_in` against a non-collection rule
value. -/
theorem C5_amended_incompatible_types (stats : FactMap) (f : String)
    (n : Int) (s : String) (sib : Rule)
    (h : dictGet stats f = some (.int n)) :
    evaluate (.leaf f "eq" (.str s)) stats = .ok false
    ∧ evaluate (.leaf f "neq" (.str s)) stats = .ok true
    ∧ (∀ op, op ∈ ["gt", "gte", "lt", "lte"] →
        evaluate (.leaf f op (.str s)) stats = .err .typeError)
    ∧ (∀ op, op ∈ ["in", "not_in"] →
        evaluate (.leaf f op (.int 0)) stats = .err .typeError)
    ∧ evaluate (.node "AND" [.leaf f "eq" (.str s), sib]) stats =
        (match evaluate sib stats with
         | .err e => .err e
         | .ok _ => .ok false) := by
  have heq : evaluate (.leaf f "eq" (.str s)) stats = .ok false := by
    simp [evaluate, h, applyLeafOp, pyEq_int_str]
  refine ⟨heq, ?_, ?_, ?_, ?_⟩
  · simp [evaluate, h, applyLeafOp, pyEq_int_str]
  · intro op hop
    simp only [List.mem_cons, List.mem_singleton, List.not_mem_nil,
      or_false] at hop
    rcases hop with rfl | rfl | rfl | rfl <;>
      simp [evaluate, h, applyLeafOp, pyGt, pyGe,
        pyLt_int_str, pyLt_str_int, pyLe_int_str, pyLe_str_int]
  · intro op hop
    simp only [List.mem_cons, List.mem_singleton, List.not_mem_nil,
      or_false] at hop
    rcases hop with rfl | rfl <;>
      simp [evaluate, h, applyLeafOp, pyIn_int_int]
  · cases hsib : evaluate sib stats with
    | err e =>
        simp [evaluate, evalConditions, h, applyLeafOp, pyEq_int_str, hsib]
    | ok b =>
        simp [evaluate, evalConditions, h, applyLeafOp, pyEq_int_str, hsib]

/-- C5 amended witness: fact map x = 5, rule value "abc", sibling
`x eq 5`; the eq leaf is false, the neq leaf true, gt raises, and the
AND node evaluates the sibling after the false eq leaf. -/
theorem C5_amended_incompatible_types_witness :
    (evaluate (.leaf "x" "eq" (.str "abc")) [("x", .int 5)] = .ok false
    ∧ evaluate (.leaf "x" "neq" (.str "abc")) [("x", .int 5)] = .ok true
    ∧ (∀ op, op ∈ ["gt", "gte", "lt", "lte"] →
        evaluate (.leaf "x" op (.str "abc")) [("x", .int 5)] =
          .err .typeError)
    ∧ (∀ op, op ∈ ["in", "not_in"] →
        evaluate (.leaf "x" op (.int 0)) [("x", .int 5)] = .err .typeError)
    ∧ evaluate (.node "AND" [.leaf "x" "eq" (.str "abc"),
                             .leaf "x" "eq" (.int 5)]) [("x", .int 5)] =
        (match evaluate (.leaf "x" "eq" (.int 5)) [("x", .int 5)] with
         | .err e => .err e
         | .ok _ => .ok false)) :=
  C5_amended_incompatible_types [("x", .int 5)] "x" 5 "abc"
    (.leaf "x" "eq" (.int 5)) (by rfl)

/-- C6 counterexample: the claim says the no-orders sentinel is at least
10^6, but for a user with zero orders the code stores the literal
999999, which is strictly below 10^6. -/
theorem C6_counterexample :
    dictGet (get_stats [] "u" 0) "seconds_since_last_order" =
      some (.int 999999)
    ∧ ¬ ((10 : Int) ^ 6 ≤ 999999) := by
  exact ⟨by rfl, by decide⟩

/-- C6 amended: for every user with zero orders, the stats fact map has
`seconds_since_last_order` equal to the numeric sentinel 999999 (which
is 10^6 - 1, not at least 10^6) and never null, so numeric comparisons
on it never fail. -/
theorem C6_amended_sentinel_999999 (orders : List Order) (u : String)
    (now : Int) (h : orders.filter (fun o => o.user_id = u) = []) :
    dictGet (get_stats orders u now) "seconds_since_last_order" =
      some (.int 999999)
    ∧ (999999 : Int) = 10 ^ 6 - 1 := by
  refine ⟨?_, by decide⟩
  simp only [get_stats, h, dictGet]
  rfl

/-- C6 amended witness: a store with one order for another user still
gives user "u" the sentinel 999999. -/
theorem C6_amended_sentinel_999999_witness :
    dictGet
      (get_stats [{ orderID := "o1", user_id := "other", amount := 10,
                    city := some "paris", created_at := 50 }] "u" 100)
      "seconds_since_last_order" = some (.int 999999)
    ∧ (999999 : Int) = 10 ^ 6 - 1 :=
  C6_amended_sentinel_999999
    [{ orderID := "o1", user_id := "other", amount := 10,
       city := some "paris", created_at := 50 }] "u" 100 (by rfl)

/-- C9: `evaluate` treats a fact key present with value None identically
to an absent key — in both cases the leaf is false for every operator
string (the None check precedes operator dispatch, so even `neq` and
`not_in` give false); and the stats map of a user with no orders has
city = None, so every leaf over "city" is false for such a user. -/
theorem C9_null_fact_leaf_false (stats : FactMap) (f op : String)
    (v : Value) :
    ((dictGet stats f = none ∨ dictGet stats f = some .null) →
      evaluate (.leaf f op v) stats = .ok false)
    ∧ (∀ (orders : List Order) (u : String) (now : Int),
        orders.filter (fun o => o.user_id = u) = [] →
        dictGet (get_stats orders u now) "city" = some .null
        ∧ ∀ lop lv, evaluate (.leaf "city" lop lv) (get_stats orders u now) =
            .ok false) := by
  constructor
  · rintro (h | h) <;> simp [evaluate, h]
  · intro orders u now h
    have hcity : dictGet (get_stats orders u now) "city" = some .null := by
      simp only [get_stats, h, dictGet]
      rfl
    exact ⟨hcity, fun lop lv => by simp [evaluate, hcity]⟩

/-- C9 witness: a fact map with city present-as-None gives false for a
`neq` leaf, and the no-orders stats map has city = None with every city
leaf false (instantiated at `not_in`). -/
theorem C9_null_fact_leaf_false_witness :
    evaluate (.leaf "city" "neq" (.str "paris")) [("city", .null)] = .ok false
    ∧ (dictGet (get_stats [] "u" 0) "city" = some .null
       ∧ ∀ lop lv, evaluate (.leaf "city" lop lv) (get_stats [] "u" 0) =
           .ok false) :=
  ⟨(C9_null_fact_leaf_false [("city", .null)] "city" "neq"
      (.str "paris")).1 (Or.inr (by rfl)),
   (C9_null_fact_leaf_false [("city", .null)] "city" "neq"
      (.str "paris")).2 [] "u" 0 (by rfl)⟩

theorem matchedSegments_ok (stats : FactMap) :
    ∀ (segs : List Segment) (l : List String),
      matchedSegments segs stats = .ok l →
      l = (segs.filter (fun s => evaluate s.rules stats = .ok true)).map
            (fun s => s.segmentID) := by
  intro segs
  induction segs with
  | nil =>
      intro l h
      simp only [matchedSegments] at h
      cases h
      rfl
  | cons s rest ih =>
      intro l h
      cases hev : evaluate s.rules stats with
      | err e =>
          simp only [matchedSegments, hev] at h
          exact Res.noConfusion h
      | ok b =>
          cases hrest : matchedSegments rest stats with
          | err e =>
              simp only [matchedSegments, hev, hrest] at h
              exact Res.noConfusion h
          | ok tail =>
              simp only [matchedSegments, hev, hrest] at h
              have htail := ih tail hrest
              cases b with
              | true =>
                  simp at h
                  subst h
                  simp [List.filter_cons, hev, htail]
              | false =>
                  simp at h
                  subst h
                  simp [List.filter_cons, hev, htail]

theorem filter_ne_then_eq_nil (ms : List UserSegmentMembership) (u : String) :
    (ms.filter (fun m => m.user_id ≠ u)).filter (fun m => m.user_id = u) = [] := by
  induction ms with
  | nil => rfl
  | cons m rest ih =>
      by_cases hm : m.user_id = u <;> simp [List.filter_cons, hm, ih]

theorem inserted_rows_project (u : String) :
    ∀ matched : List String,
      ((matched.map (fun sid =>
          ({ user_id := u, segmentID := sid } : UserSegmentMembership))).filter
        (fun m => m.user_id = u)).map (fun m => m.segmentID) = matched := by
  intro matched
  induction matched with
  | nil => rfl
  | cons sid rest ih => simp [List.filter_cons, ih]

/-- C2: after a successful `refresh_user_segments(user_id)`, (a) the
returned list is exactly the segments whose rule tree evaluates to true
against the single stats snapshot fetched during that call, (b) the
stored membership table is the old table minus every row of that user
plus one fresh row per matched segment (full delete-then-insert, never a
partial patch), and (c) consequently the user's stored membership set
equals exactly the matched set — nothing from a prior run remains. -/
theorem C2_refresh_full_replace (db : DB) (u : String) (now : Int)
    (db1 : DB) (matched : List String)
    (h : refresh_user_segments db u now = .ok (db1, matched)) :
    matched = (db.segments.filter (fun s =>
        evaluate s.rules (get_stats db.orders u now) = .ok true)).map
          (fun s => s.segmentID)
    ∧ db1.memberships =
        db.memberships.filter (fun m => m.user_id ≠ u)
          ++ matched.map (fun sid =>
              ({ user_id := u, segmentID := sid } : UserSegmentMembership))
    ∧ (db1.memberships.filter (fun m => m.user_id = u)).map
        (fun m => m.segmentID) = matched := by
  cases hm : matchedSegments db.segments (get_stats db.orders u now) with
  | err e =>
      simp only [refresh_user_segments, hm] at h
      exact Res.noConfusion h
  | ok l =>
      simp only [refresh_user_segments, hm, Res.ok.injEq, Prod.mk.injEq] at h
      obtain ⟨hdb, hl⟩ := h
      subst hl
      refine ⟨matchedSegments_ok _ _ _ hm, ?_, ?_⟩
      · rw [← hdb]
      · rw [← hdb]
        simp only [List.filter_append, List.map_append,
          filter_ne_then_eq_nil, inserted_rows_project]
        rfl

/-- The segment used by concrete witness states: matches new users. -/
def newUserSeg : Segment :=
  { segmentID := "s1", name := "new_user", description := none,
    rules := .leaf "is_new_user" "eq" (.bool true) }

/-- Witness store: no orders, one segment, stale memberships for u1, u2. -/
def exDB : DB :=
  { orders := [], segments := [newUserSeg], experiments := [],
    experimentSegments := [],
    memberships := [{ user_id := "u1", segmentID := "old" },
                    { user_id := "u2", segmentID := "old" }] }

/-- The store after refreshing u1 in `exDB`: u1's stale row replaced by
the matched segment s1, u2 untouched. -/
def exDB1 : DB :=
  { orders := [], segments := [newUserSeg], experiments := [],
    experimentSegments := [],
    memberships := [{ user_id := "u2", segmentID := "old" },
                    { user_id := "u1", segmentID := "s1" }] }

/-- C2 witness: refreshing u1 in `exDB` yields exactly [s1] and the
delete-then-insert membership table of `exDB1`. -/
theorem C2_refresh_full_replace_witness :
    ["s1"] = (exDB.segments.filter (fun s =>
        evaluate s.rules (get_stats exDB.orders "u1" 0) = .ok true)).map
          (fun s => s.segmentID)
    ∧ exDB1.memberships =
        exDB.memberships.filter (fun m => m.user_id ≠ "u1")
          ++ ["s1"].map (fun sid =>
              ({ user_id := "u1", segmentID := sid } : UserSegmentMembership))
    ∧ (exDB1.memberships.filter (fun m => m.user_id = "u1")).map
        (fun m => m.segmentID) = ["s1"] :=
  C2_refresh_full_replace exDB "u1" 0 exDB1 ["s1"] (by rfl)

theorem cacheGet_cacheDel {α : Type} (c : Cache α) (u : String) :
    cacheGet (cacheDel c u) u = none := by
  have hfind : (cacheDel c u).find? (fun p => p.1 = u) = none := by
    rw [List.find?_eq_none]
    intro p hp
    have hmem := List.of_mem_filter hp
    simp only [decide_not, Bool.not_eq_eq_eq_not, Bool.not_true,
      decide_eq_false_iff_not] at hmem
    simpa using hmem
  simp [cacheGet, hfind]

/-- C7: when the deferred dormancy check fires for user u with the
scheduling order's timestamp t, (a) if u has any order strictly after t
the check is a no-op — state unchanged, no refresh, no invalidation —
and (b) otherwise it installs the store produced by the Segment Resolver
run and deletes both cache sub-entries for u (both lookups then miss). -/
theorem C7_dormancy_noop_or_refresh (st : AppState) (u : String)
    (t now : Int) :
    (st.db.orders.any (fun o => o.user_id = u ∧ o.created_at > t) = true →
      check_user_dormancy st u t now = st)
    ∧ (st.db.orders.any (fun o => o.user_id = u ∧ o.created_at > t) = false →
      ∀ db1 matched,
        refresh_user_segments st.db u now = .ok (db1, matched) →
        check_user_dormancy st u t now =
          { db := db1, expCache := cacheDel st.expCache u,
            bannerCache := cacheDel st.bannerCache u }
        ∧ cacheGet (cacheDel st.expCache u) u = none
        ∧ cacheGet (cacheDel st.bannerCache u) u = none) := by
  constructor
  · intro hact
    unfold check_user_dormancy
    rw [hact]
    simp
  · intro hact db1 matched href
    refine ⟨?_, cacheGet_cacheDel _ _, cacheGet_cacheDel _ _⟩
    unfold check_user_dormancy
    rw [hact, href]
    simp

/-- Witness state for the dormancy no-op: u1 ordered at time 5, caches
hold entries for u1. -/
def stDorm : AppState :=
  { db := { orders := [{ orderID := "o1", user_id := "u1", amount := 10,
                         city := some "paris", created_at := 5 }],
            segments := [newUserSeg], experiments := [],
            experimentSegments := [], memberships := [] },
    expCache := [("u1", [])], bannerCache := [] }

/-- C7 witness: the order at time 5 is strictly after the scheduling
order time 3, so the fired check leaves the state untouched. -/
theorem C7_dormancy_noop_or_refresh_witness :
    check_user_dormancy stDorm "u1" 3 0 = stDorm :=
  (C7_dormancy_noop_or_refresh stDorm "u1" 3 0).1 (by rfl)

/-- C8: on a banner-mixture cache miss for a user whose set of matching
banner-type experiments is empty, the operation returns absent (None)
and leaves the state — in particular the banner cache — entirely
unchanged, so every subsequent miss recomputes until a positive result
exists. -/
theorem C8_empty_banner_absent_not_cached (sample : List Nat → List Nat)
    (st : AppState) (u : String)
    (hmiss : cacheGet st.bannerCache u = none)
    (hempty : get_banner_experiments st.db u = .ok []) :
    generate_user_banner_mixture sample st u = .ok (st, none) := by
  simp [generate_user_banner_mixture, hmiss, hempty]

/-- Witness state for C8: empty store and caches. -/
def stEmpty : AppState :=
  { db := { orders := [], segments := [], experiments := [],
            experimentSegments := [], memberships := [] },
    expCache := [], bannerCache := [] }

/-- C8 witness: with no experiments at all, the mixture is absent and
the state is returned unchanged. -/
theorem C8_empty_banner_absent_not_cached_witness :
    generate_user_banner_mixture (fun l => l) stEmpty "u1" =
      .ok (stEmpty, none) :=
  C8_empty_banner_absent_not_cached (fun l => l) stEmpty "u1"
    (by rfl) (by rfl)

theorem generate_preserves_db (sample : List Nat → List Nat)
    (st : AppState) (u : String) (st1 : AppState) (bm : Option Mixture)
    (h : generate_user_banner_mixture sample st u = .ok (st1, bm)) :
    st1.db = st.db := by
  cases hc : cacheGet st.bannerCache u with
  | some m =>
      simp only [generate_user_banner_mixture, hc, Res.ok.injEq,
        Prod.mk.injEq] at h
      rw [← h.1]
  | none =>
      cases hb : get_banner_experiments st.db u with
      | err e =>
          simp only [generate_user_banner_mixture, hc, hb] at h
          exact Res.noConfusion h
      | ok bexps =>
          simp only [generate_user_banner_mixture, hc, hb] at h
          split at h
          · simp only [Res.ok.injEq, Prod.mk.injEq] at h
            rw [← h.1]
          · simp only [Res.ok.injEq, Prod.mk.injEq] at h
            rw [← h.1]

/-- C1: on a read-path cache miss the Segment Resolver runs if and only
if the user has zero membership rows.  The "has any membership row"
predicate (modelled from the spec, its body being absent from the
provided sources) is true exactly when some membership row belongs to
the user; when it is true, a cache-miss read leaves the store untouched
(no re-resolution); when it is false, the read's resulting store is
exactly the one produced by a `refresh_user_segments` run. -/
theorem C1_miss_resolves_iff_no_membership (sample : List Nat → List Nat)
    (st : AppState) (u : String) (now : Int)
    (hmiss : cacheGet st.expCache u = none) :
    (has_segment_memberships st.db u = true ↔
      ∃ m ∈ st.db.memberships, m.user_id = u)
    ∧ (has_segment_memberships st.db u = true →
      ∀ st1 r, get_user_experiments_route sample st u now = .ok (st1, r) →
        st1.db = st.db)
    ∧ (has_segment_memberships st.db u = false →
      ∀ st1 r, get_user_experiments_route sample st u now = .ok (st1, r) →
        ∃ db1 matched,
          refresh_user_segments st.db u now = .ok (db1, matched)
          ∧ st1.db = db1) := by
  refine ⟨by simp [has_segment_memberships, List.any_eq_true], ?_, ?_⟩
  · intro hhas st1 r hroute
    unfold get_user_experiments_route at hroute
    rw [hmiss, hhas] at hroute
    simp only [if_true] at hroute
    cases hexp : get_user_experiments st.db u with
    | err e =>
        rw [hexp] at hroute
        exact Res.noConfusion hroute
    | ok exps =>
        rw [hexp] at hroute
        cases hgen : generate_user_banner_mixture sample
            { st with db := st.db } u with
        | err e =>
            rw [hgen] at hroute
            exact Res.noConfusion hroute
        | ok p =>
            obtain ⟨st2, bm⟩ := p
            rw [hgen] at hroute
            simp only [Res.ok.injEq, Prod.mk.injEq] at hroute
            have hdb2 := generate_preserves_db sample
              { st with db := st.db } u st2 bm hgen
            rw [← hroute.1]
            exact hdb2
  · intro hhas st1 r hroute
    unfold get_user_experiments_route at hroute
    rw [hmiss, hhas] at hroute
    simp only [Bool.false_eq_true, if_false] at hroute
    cases href : refresh_user_segments st.db u now with
    | err e =>
        simp only [href] at hroute
        exact Res.noConfusion hroute
    | ok p =>
        obtain ⟨db1, matched⟩ := p
        simp only [href] at hroute
        refine ⟨db1, matched, rfl, ?_⟩
        cases hexp : get_user_experiments db1 u with
        | err e =>
            simp only [hexp] at hroute
            exact Res.noConfusion hroute
        | ok exps =>
            simp only [hexp] at hroute
            cases hgen : generate_user_banner_mixture sample
                { st with db := db1 } u with
            | err e =>
                simp only [hgen] at hroute
                exact Res.noConfusion hroute
            | ok p2 =>
                obtain ⟨st2, bm⟩ := p2
                simp only [hgen, Res.ok.injEq, Prod.mk.injEq] at hroute
                have hdb2 := generate_preserves_db sample
                  { st with db := db1 } u st2 bm hgen
                rw [← hroute.1]
                exact hdb2

/-- Witness state for C1: u1 already has one membership row, the
assignment cache is empty (a miss), no experiments exist. -/
def stRead : AppState :=
  { db := { orders := [], segments := [], experiments := [],
            experimentSegments := [],
            memberships := [{ user_id := "u1", segmentID := "s1" }] },
    expCache := [], bannerCache := [] }

/-- The state after the cache-miss read for u1 in `stRead`: only the
assignment cache gained an (empty) entry; the store is untouched. -/
def stRead1 : AppState :=
  { db := stRead.db, expCache := [("u1", [])], bannerCache := [] }

/-- C1 witness: u1 has a membership row, so the cache-miss read answers
from the store without re-resolving segments — the resulting store
equals the original. -/
theorem C1_miss_resolves_iff_no_membership_witness :
    (has_segment_memberships stRead.db "u1" = true ↔
      ∃ m ∈ stRead.db.memberships, m.user_id = "u1")
    ∧ stRead1.db = stRead.db :=
  ⟨(C1_miss_resolves_iff_no_membership (fun l => l) stRead "u1" 0
      (by rfl)).1,
   (C1_miss_resolves_iff_no_membership (fun l => l) stRead "u1" 0
      (by rfl)).2.1 (by rfl) stRead1
      { user_id := "u1", experiments := [], source := "db",
        banner_mixture := none } (by rfl)⟩

end Stratify
